import Mathlib

/-!
Verification development for the PosterFlow print-export and credential
code (src/app.py, src/google_drive.py).  The geometry engine and the
credential store are shallowly embedded as executable Lean functions,
translated line by line from the Python source.  Raster libraries and the
network are modelled at their contract boundary: the PIL resize and new
calls keep their documented size validation, and remote responses enter
as explicit oracle arguments.
-/

namespace Posterflow

/-! ## PIL model

A decoded raster image, tracked by its geometry and colour mode.  Pixel
content under resampling is outside the model; the mode field records
opacity (mode RGB has no alpha channel, hence no transparency).
-/

structure PILImage where
  width : Int
  height : Int
  mode : String
deriving Repr, DecidableEq

/-- Python int() applied to an exact nonneg-or-neg rational a / b:
truncation toward zero, which is Int.div. -/
def pyInt (a b : Int) : Int := Int.tdiv a b

/-- Python floor division a // b. -/
def pyFloorDiv (a b : Int) : Int := Int.fdiv a b

/-- PIL Image.resize: the library rejects a requested size below 1 on
either axis (ValueError: height and width must be > 0). -/
def pilResize (img : PILImage) (w h : Int) : Except String PILImage :=
  if w < 1 ∨ h < 1 then .error "height and width must be > 0"
  else .ok ⟨w, h, img.mode⟩

/-- PIL Image.new: the library rejects a negative size but allows zero. -/
def pilNew (mode : String) (w h : Int) : Except String PILImage :=
  if w < 0 ∨ h < 0 then .error "Width and height must be greater than or equal to 0"
  else .ok ⟨w, h, mode⟩

/-- PIL Image.convert to RGB: geometry unchanged, alpha dropped. -/
def pilConvertRGB (img : PILImage) : PILImage :=
  { img with mode := "RGB" }

/-- Result of square_to_portrait: the white canvas, the scaled image
pasted onto it, and the paste offsets. -/
structure Portrait where
  canvas : PILImage
  scaledW : Int
  scaledH : Int
  offX : Int
  offY : Int
deriving Repr, DecidableEq

/-- src/app.py square_to_portrait: fit the source to the target width;
if the resulting height overflows the target height, fit to the height
instead; paste centered on a white RGB canvas of the target size.
Python float arithmetic int(h * (tw / w)) is idealized to the exact
rational truncation pyInt (h * tw) w. -/
def square_to_portrait (img : PILImage) (target_w target_h : Int) :
    Except String Portrait :=
  let img := pilConvertRGB img
  -- scale = target_w / img.width ; new_h = int(img.height * scale)
  let new_w := target_w
  let new_h := pyInt (img.height * target_w) img.width
  match pilResize img new_w new_h with
  | .error e => .error e
  | .ok resized0 =>
    -- if new_h > target_h: scale = target_h / img.height ;
    --                      new_w = int(img.width * scale)
    let step2 : Except String PILImage :=
      if new_h > target_h then
        pilResize img (pyInt (img.width * target_h) img.height) target_h
      else .ok resized0
    match step2 with
    | .error e => .error e
    | .ok resized =>
      match pilNew "RGB" target_w target_h with
      | .error e => .error e
      | .ok canvas =>
        .ok ⟨canvas, resized.width, resized.height,
             pyFloorDiv (target_w - resized.width) 2,
             pyFloorDiv (target_h - resized.height) 2⟩

/-- src/app.py PRINT_SIZES, in source order. -/
def PRINT_SIZES : List (String × Int × Int) :=
  [("A3", (3508, 4961)), ("A4", (2480, 3508)), ("A5", (1748, 2480))]

/-- A JPEG encoding of a portrait: decodes back to a raster of the
recorded size; quality and subsampling record the save parameters. -/
structure JpegImage where
  width : Int
  height : Int
  quality : Nat
  subsampling : Nat
deriving Repr, DecidableEq

/-- src/app.py make_print_variants: decode once, then for each configured
print size produce the portrait and encode it as JPEG quality 95 with
subsampling 0.  The Python loop propagates the first exception, so it is
a fail-fast traversal. -/
def make_print_variants (img : PILImage) :
    Except String (List (String × JpegImage)) :=
  PRINT_SIZES.mapM (fun entry => do
    let portrait ← square_to_portrait img entry.2.1 entry.2.2
    return (entry.1, ⟨portrait.canvas.width, portrait.canvas.height, 95, 0⟩))

/-! ## Credential store model (src/google_drive.py)

The users table of users.db: one row per record, ids assigned by the
sqlite autoincrement (strictly larger than every id already in the
table).  Nullable text columns are Option String.
-/

structure UserRow where
  id : Nat
  email : String
  name : String
  picture : String
  access_token : Option String
  refresh_token : Option String
deriving Repr, DecidableEq

/-- Python truthiness of a nullable text column: NULL and the empty
string are falsy. -/
def truthyStr : Option String → Bool
  | none => false
  | some s => s ≠ ""

/-- The google Credentials value the code builds and returns: the access
token and the refresh token it was constructed with. -/
structure Creds where
  token : Option String
  refresh_token : Option String
deriving Repr, DecidableEq

/-- src/google_drive.py GDRIVE_FOLDER_ID, a hardcoded constant. -/
def GDRIVE_FOLDER_ID : String := "1b068Va7q94iVtGEU-h-hfN_VQfBSTsDT"

/-- src/google_drive.py get_valid_credentials.  External effects enter
as oracle arguments: clientSecret is the result of reading
client_secret.json (an error here is caught by the try block and turns
into a None return), expired is the google Credentials own expiry check,
and refreshResult is the outcome of the refresh exchange (an error is a
raised exception, caught and turned into a None return).  Returns the
result together with the state of the users table after the call. -/
def get_valid_credentials (db : List UserRow) (email : String)
    (clientSecret : Except String String) (expired : Bool)
    (refreshResult : Except String String) :
    Option Creds × List UserRow :=
  match (db.filter (fun r => r.email = email)).head? with
  | none => (none, db)
  | some row =>
    match clientSecret with
    | .error _ => (none, db)
    | .ok _ =>
      let creds : Creds := ⟨row.access_token, row.refresh_token⟩
      if expired && truthyStr row.refresh_token then
        match refreshResult with
        | .error _ => (none, db)
        | .ok newTok =>
          -- creds.refresh installs the new access token; the code then
          -- runs UPDATE users SET access_token=? WHERE email=?
          (some ⟨some newTok, row.refresh_token⟩,
           db.map (fun r =>
             if r.email = email then { r with access_token := some newTok } else r))
      else
        (some creds, db)

/-- An HTTP response as the code consumes it: status, body text, and the
id field of the decoded JSON body when present. -/
structure HttpResponse where
  status_code : Int
  text : String
  json_id : Option String
deriving Repr, DecidableEq

/-- Outcome of the requests.post call: a response, or a raised
network-level exception carrying str(e). -/
inductive NetResult where
  | response : HttpResponse → NetResult
  | exc : String → NetResult
deriving Repr, DecidableEq

/-- The dictionary upload_image_to_drive returns. -/
structure UploadResult where
  success : Bool
  file_id : Option String
  message : Option String
  error : Option String
deriving Repr, DecidableEq

/-- The multipart request the code posts: the folder id placed in the
metadata parents list, and the filename. -/
structure UploadRequest where
  folder : String
  filename : String
deriving Repr, DecidableEq

/-- src/google_drive.py upload_image_to_drive, with the folder id
configuration value, the resolved credentials and the network outcome
passed explicitly.  Returns the result dictionary together with the
request that was posted, if any.  The source posts whenever credentials
resolve; it contains no check of the folder configuration.  The success
message punctuation around the filename is elided. -/
def upload_image_to_drive (folder_id : String) (filename : String)
    (creds : Option Creds) (net : NetResult) :
    UploadResult × Option UploadRequest :=
  match creds with
  | none =>
    ({ success := false, file_id := none, message := none,
       error := some "No valid credentials found" }, none)
  | some _ =>
    match net with
    | .exc msg =>
      ({ success := false, file_id := none, message := none,
         error := some msg }, some ⟨folder_id, filename⟩)
    | .response r =>
      if r.status_code = 200 then
        ({ success := true, file_id := r.json_id,
           message := some ("File " ++ filename ++ " uploaded successfully!"),
           error := none }, some ⟨folder_id, filename⟩)
      else
        ({ success := false, file_id := none, message := none,
           error := some ("Upload failed: " ++ r.text) },
         some ⟨folder_id, filename⟩)

/-- One comparison step of the ORDER BY id DESC LIMIT 1 selection. -/
def maxStep (acc : Option UserRow) (r : UserRow) : Option UserRow :=
  match acc with
  | none => some r
  | some m => if r.id > m.id then some r else some m

/-- The row selected by ORDER BY id DESC LIMIT 1: the row with the
greatest id (ids are unique, being the primary key). -/
def maxRow (db : List UserRow) : Option UserRow :=
  db.foldl maxStep none

/-- src/google_drive.py get_authenticated_user:
SELECT email FROM users ORDER BY id DESC LIMIT 1. -/
def get_authenticated_user (db : List UserRow) : Option String :=
  (maxRow db).map (fun r => r.email)

/-- The sqlite autoincrement id for a fresh insert: strictly greater
than every id in the table. -/
def nextId (db : List UserRow) : Nat :=
  db.foldl (fun m r => max m r.id) 0 + 1

/-- src/google_drive.py save_manual_tokens: INSERT OR IGNORE a fresh row
for the email (a no-op when the unique email already exists), then
UPDATE the token columns of the email row.  The name column of a fresh
row is the part of the email before the first at sign, the picture
column is empty. -/
def save_manual_tokens (db : List UserRow) (email access : String)
    (refresh : Option String) : List UserRow :=
  let db1 :=
    if db.any (fun r => r.email = email) then db
    else db ++ [⟨nextId db, email, email.takeWhile (fun c => c ≠ '@'), "",
                some access, refresh⟩]
  db1.map (fun r =>
    if r.email = email then
      { r with access_token := some access, refresh_token := refresh }
    else r)

/-- The token columns of the email row, as read back by
SELECT access_token, refresh_token FROM users WHERE email=? (fetchone). -/
def get_tokens (db : List UserRow) (email : String) :
    Option (Option String × Option String) :=
  ((db.filter (fun r => r.email = email)).head?).map
    (fun r => (r.access_token, r.refresh_token))

/-! ## Theorems -/

/-- Helper: a first resize with both requested sizes at least 1 succeeds. -/
theorem pilResize_ok (img : PILImage) (w h : Int) (hw : 1 ≤ w) (hh : 1 ≤ h) :
    pilResize img w h = .ok ⟨w, h, img.mode⟩ := by
  unfold pilResize
  rw [if_neg]
  push_neg
  omega

/-- Helper: a canvas with nonnegative sizes is created. -/
theorem pilNew_ok (mode : String) (w h : Int) (hw : 0 ≤ w) (hh : 0 ≤ h) :
    pilNew mode w h = .ok ⟨w, h, mode⟩ := by
  unfold pilNew
  rw [if_neg]
  push_neg
  omega

/-- Closed-form characterization of square_to_portrait, by unfolding the
match chain of the translation. -/
theorem square_to_portrait_eq (w h tw th : Int) (m : String) :
    square_to_portrait ⟨w, h, m⟩ tw th =
      if tw < 1 ∨ pyInt (h * tw) w < 1 then
        .error "height and width must be > 0"
      else if pyInt (h * tw) w > th then
        if pyInt (w * th) h < 1 ∨ th < 1 then
          .error "height and width must be > 0"
        else
          .ok ⟨⟨tw, th, "RGB"⟩, pyInt (w * th) h, th,
               pyFloorDiv (tw - pyInt (w * th) h) 2, pyFloorDiv (th - th) 2⟩
      else
        .ok ⟨⟨tw, th, "RGB"⟩, tw, pyInt (h * tw) w,
             pyFloorDiv (tw - tw) 2, pyFloorDiv (th - pyInt (h * tw) w) 2⟩ := by
  unfold square_to_portrait pilConvertRGB pilResize pilNew
  dsimp only
  by_cases c1 : tw < 1 ∨ pyInt (h * tw) w < 1
  · simp only [if_pos c1]
  · simp only [if_neg c1]
    by_cases c2 : pyInt (h * tw) w > th
    · simp only [if_pos c2]
      by_cases c3 : pyInt (w * th) h < 1 ∨ th < 1
      · simp only [if_pos c3]
      · simp only [if_neg c3]
        rw [if_neg (show ¬(tw < 0 ∨ th < 0) by omega)]
    · simp only [if_neg c2]
      rw [if_neg (show ¬(tw < 0 ∨ th < 0) by omega)]

/-- C8: square_to_portrait raises the PIL dimension error whenever either
target dimension is at most 0: a nonpositive target width is rejected by
the first resize, and a nonpositive target height is rejected either by
the first resize (when the width-fit height truncates to 0) or by the
height-fit resize that the overflow branch then requests. -/
theorem C8_square_to_portrait_nonpositive_target
    (w h tw th : Int) (m : String)
    (hw : 1 ≤ w) (hh : 1 ≤ h) (hbad : tw ≤ 0 ∨ th ≤ 0) :
    square_to_portrait ⟨w, h, m⟩ tw th = .error "height and width must be > 0" := by
  rw [square_to_portrait_eq]
  by_cases c1 : tw < 1 ∨ pyInt (h * tw) w < 1
  · rw [if_pos c1]
  · rw [if_neg c1, if_pos (show pyInt (h * tw) w > th by omega),
        if_pos (Or.inr (show th < 1 by omega))]

/-- C8 witness: a 1024 by 1024 source with target width 0 fails. -/
theorem C8_witness :
    square_to_portrait ⟨1024, 1024, "RGB"⟩ 0 10
      = .error "height and width must be > 0" :=
  C8_square_to_portrait_nonpositive_target 1024 1024 0 10 "RGB"
    (by decide) (by decide) (Or.inl (by decide))

/-- C1 counterexample: a decoded 4000 by 1 source has positive
dimensions and the A3 target is positive, yet square_to_portrait raises
the PIL dimension error instead of returning a padded canvas, because
the width-fit height int(1 * 3508 / 4000) truncates to 0. -/
theorem C1_counterexample :
    square_to_portrait ⟨4000, 1, "RGB"⟩ 3508 4961
      = .error "height and width must be > 0" := by rfl

/-- C1 (amended): whenever the truncated scaled dimensions stay at least
1 pixel (which holds for every non-degenerate aspect ratio and in
particular for the fixed print targets on ordinary sources),
square_to_portrait scales to fit the target width, or to fit the target
height when the width-fit height exceeds it, and returns an opaque RGB
canvas of exactly the target size with the scaled image centered at the
floored half-gap offsets. -/
theorem C1_square_to_portrait_fit_and_pad
    (w h tw th : Int) (m : String)
    (hw : 1 ≤ w) (hh : 1 ≤ h) (htw : 1 ≤ tw) (hth : 1 ≤ th)
    (h1 : 1 ≤ pyInt (h * tw) w)
    (h2 : th < pyInt (h * tw) w → 1 ≤ pyInt (w * th) h) :
    ∃ p : Portrait,
      square_to_portrait ⟨w, h, m⟩ tw th = .ok p ∧
      p.canvas = ⟨tw, th, "RGB"⟩ ∧
      p.scaledW ≤ tw ∧ p.scaledH ≤ th ∧
      1 ≤ p.scaledW ∧ 1 ≤ p.scaledH ∧
      p.offX = (tw - p.scaledW) / 2 ∧ p.offY = (th - p.scaledH) / 2 ∧
      0 ≤ p.offX ∧ 0 ≤ p.offY ∧
      ((pyInt (h * tw) w ≤ th ∧ p.scaledW = tw ∧ p.scaledH = pyInt (h * tw) w) ∨
       (th < pyInt (h * tw) w ∧ p.scaledH = th ∧ p.scaledW = pyInt (w * th) h)) := by
  rw [square_to_portrait_eq]
  rw [if_neg (show ¬(tw < 1 ∨ pyInt (h * tw) w < 1) by omega)]
  by_cases c2 : pyInt (h * tw) w > th
  · have hnw : 1 ≤ pyInt (w * th) h := h2 c2
    rw [if_pos c2, if_neg (show ¬(pyInt (w * th) h < 1 ∨ th < 1) by omega)]
    have e1 : pyInt (h * tw) w = h * tw / w :=
      Int.tdiv_eq_ediv (mul_nonneg (by omega) (by omega)) (by omega)
    have e2 : pyInt (w * th) h = w * th / h :=
      Int.tdiv_eq_ediv (mul_nonneg (by omega) (by omega)) (by omega)
    have hc2m : (th + 1) * w ≤ h * tw := by
      rw [← Int.le_ediv_iff_mul_le (show (0:Int) < w by omega), ← e1]
      omega
    have key : pyInt (w * th) h < tw := by
      rw [e2, Int.ediv_lt_iff_lt_mul (show (0:Int) < h by omega)]
      nlinarith
    refine ⟨_, rfl, rfl, le_of_lt key, le_refl th, hnw, hth,
      Int.fdiv_eq_ediv _ (by omega), Int.fdiv_eq_ediv _ (by omega),
      ?_, ?_, Or.inr ⟨c2, rfl, rfl⟩⟩
    · show 0 ≤ pyFloorDiv (tw - pyInt (w * th) h) 2
      rw [show pyFloorDiv (tw - pyInt (w * th) h) 2
            = (tw - pyInt (w * th) h) / 2 from Int.fdiv_eq_ediv _ (by omega)]
      exact Int.ediv_nonneg (by omega) (by omega)
    · show 0 ≤ pyFloorDiv (th - th) 2
      rw [show pyFloorDiv (th - th) 2 = (th - th) / 2 from
            Int.fdiv_eq_ediv _ (by omega)]
      exact Int.ediv_nonneg (by omega) (by omega)
  · rw [if_neg c2]
    refine ⟨_, rfl, rfl, le_refl tw, show pyInt (h * tw) w ≤ th by omega, htw, h1,
      Int.fdiv_eq_ediv _ (by omega), Int.fdiv_eq_ediv _ (by omega),
      ?_, ?_, Or.inl ⟨by omega, rfl, rfl⟩⟩
    · show 0 ≤ pyFloorDiv (tw - tw) 2
      rw [show pyFloorDiv (tw - tw) 2 = (tw - tw) / 2 from
            Int.fdiv_eq_ediv _ (by omega)]
      exact Int.ediv_nonneg (by omega) (by omega)
    · show 0 ≤ pyFloorDiv (th - pyInt (h * tw) w) 2
      rw [show pyFloorDiv (th - pyInt (h * tw) w) 2
            = (th - pyInt (h * tw) w) / 2 from Int.fdiv_eq_ediv _ (by omega)]
      exact Int.ediv_nonneg (by omega) (by omega)

/-- C1 witness: a 1024 by 1024 source against the A3 target. -/
theorem C1_witness :
    ∃ p : Portrait,
      square_to_portrait ⟨1024, 1024, "RGB"⟩ 3508 4961 = .ok p ∧
      p.canvas = ⟨3508, 4961, "RGB"⟩ ∧
      p.scaledW ≤ 3508 ∧ p.scaledH ≤ 4961 ∧
      1 ≤ p.scaledW ∧ 1 ≤ p.scaledH ∧
      p.offX = (3508 - p.scaledW) / 2 ∧ p.offY = (4961 - p.scaledH) / 2 ∧
      0 ≤ p.offX ∧ 0 ≤ p.offY ∧
      ((pyInt (1024 * 3508) 1024 ≤ 4961 ∧ p.scaledW = 3508 ∧
        p.scaledH = pyInt (1024 * 3508) 1024) ∨
       (4961 < pyInt (1024 * 3508) 1024 ∧ p.scaledH = 4961 ∧
        p.scaledW = pyInt (1024 * 4961) 1024)) :=
  C1_square_to_portrait_fit_and_pad 1024 1024 3508 4961 "RGB"
    (by decide) (by decide) (by decide) (by decide) (by decide) (by decide)

/-- Helper: whenever square_to_portrait succeeds, the canvas is exactly
the requested target size in opaque RGB. -/
theorem square_to_portrait_ok_canvas (img : PILImage) (tw th : Int)
    (p : Portrait) (hok : square_to_portrait img tw th = .ok p) :
    p.canvas = ⟨tw, th, "RGB"⟩ := by
  obtain ⟨w, h, m⟩ := img
  rw [square_to_portrait_eq] at hok
  split_ifs at hok
  all_goals first
    | exact Except.noConfusion hok
    | (injection hok with hok; subst hok; rfl)

/-- Helper: bind on Except propagates an error. -/
theorem exceptBindError {α β : Type} (e : String) (f : α → Except String β) :
    (Except.error e >>= f) = Except.error e := rfl

/-- Helper: bind on Except feeds a success through. -/
theorem exceptBindOk {α β : Type} (a : α) (f : α → Except String β) :
    (Except.ok a >>= f : Except String β) = f a := rfl

/-- C2 counterexample: on a 1024 by 1024 source the variant keys are the
configured names A3, A4, A5, not Large, Medium, Small; and the 4000 by 1
source decodes to a raster yet the whole call fails, so not every
decodable source yields a three-entry result. -/
theorem C2_counterexample :
    make_print_variants ⟨1024, 1024, "RGB"⟩
      = .ok [("A3", ⟨3508, 4961, 95, 0⟩), ("A4", ⟨2480, 3508, 95, 0⟩),
             ("A5", ⟨1748, 2480, 95, 0⟩)] ∧
    make_print_variants ⟨4000, 1, "RGB"⟩
      = .error "height and width must be > 0" := by
  constructor <;> rfl

/-- C2 (amended): for every decoded source, make_print_variants either
fails as one whole call, exposing no partial variant set, or returns
exactly one entry per configured print target in configuration order,
keyed A3, A4, A5, each encoded at JPEG quality 95 subsampling 0 with
dimensions exactly 3508 by 4961, 2480 by 3508, and 1748 by 2480. -/
theorem C2_make_print_variants_shape (img : PILImage) :
    (∃ e, make_print_variants img = .error e) ∨
    make_print_variants img =
      .ok [("A3", ⟨3508, 4961, 95, 0⟩), ("A4", ⟨2480, 3508, 95, 0⟩),
           ("A5", ⟨1748, 2480, 95, 0⟩)] := by
  unfold make_print_variants PRINT_SIZES
  simp only [List.mapM_cons, List.mapM_nil]
  rcases h3 : square_to_portrait img 3508 4961 with e3 | p3
  · left
    exact ⟨e3, by simp [h3, exceptBindError]⟩
  · have c3 := square_to_portrait_ok_canvas img 3508 4961 p3 h3
    rcases h4 : square_to_portrait img 2480 3508 with e4 | p4
    · left
      refine ⟨e4, ?_⟩
      simp [h3, h4, exceptBindError, exceptBindOk, bind_pure_comp]
    · have c4 := square_to_portrait_ok_canvas img 2480 3508 p4 h4
      rcases h5 : square_to_portrait img 1748 2480 with e5 | p5
      · left
        refine ⟨e5, ?_⟩
        simp [h3, h4, h5, exceptBindError, exceptBindOk, bind_pure_comp]
      · have c5 := square_to_portrait_ok_canvas img 1748 2480 p5 h5
        right
        simp [h3, h4, h5, exceptBindOk, bind_pure_comp, c3, c4, c5]

/-- C3 counterexample: a store holding a record whose access token is
expired (the OAuth client check says so) and whose refresh token is
absent.  get_valid_credentials returns the stored expired credentials
unchanged instead of failing. -/
theorem C3_counterexample :
    get_valid_credentials [⟨1, "a@b.c", "a", "", some "expiredTok", none⟩]
        "a@b.c" (.ok "secret") true (.ok "unusedNewTok")
      = (some ⟨some "expiredTok", none⟩,
         [⟨1, "a@b.c", "a", "", some "expiredTok", none⟩]) := by rfl

/-- C3 (amended): with a record present, the client secret readable, the
access token expired and no truthy refresh token, get_valid_credentials
skips the refresh branch entirely and returns the stored (expired)
credentials unchanged, with no failure path and no store mutation. -/
theorem C3_expired_without_refresh_returns_stale
    (db : List UserRow) (email s : String) (rr : Except String String)
    (row : UserRow)
    (hrow : (db.filter (fun r => r.email = email)).head? = some row)
    (hnorefresh : truthyStr row.refresh_token = false) :
    get_valid_credentials db email (.ok s) true rr
      = (some ⟨row.access_token, row.refresh_token⟩, db) := by
  unfold get_valid_credentials
  rw [hrow]
  simp [hnorefresh]

/-- C3 witness: the amended behaviour at a concrete one-row store. -/
theorem C3_witness :
    get_valid_credentials [⟨1, "a@b.c", "a", "", some "expiredTok", none⟩]
        "a@b.c" (.ok "secret") true (.error "refresh by exception")
      = (some ⟨some "expiredTok", none⟩,
         [⟨1, "a@b.c", "a", "", some "expiredTok", none⟩]) :=
  C3_expired_without_refresh_returns_stale
    [⟨1, "a@b.c", "a", "", some "expiredTok", none⟩] "a@b.c" "secret"
    (.error "refresh by exception")
    ⟨1, "a@b.c", "a", "", some "expiredTok", none⟩ (by rfl) (by rfl)

/-- C9: the only run of get_valid_credentials that mutates the store is
a successful refresh exchange, and that run rewrites exactly the access
token of the addressed row: ids, emails, names, pictures and refresh
tokens map unchanged, other rows keep their access tokens, every row of
the addressed email now stores the new access token, and the refreshed
credentials are returned.  Every other path leaves the store as it was. -/
theorem C9_refresh_persists_only_access_token
    (db : List UserRow) (email : String) (cs : Except String String)
    (expired : Bool) (rr : Except String String) :
    ((db.filter (fun r => r.email = email)).head? = none →
        (get_valid_credentials db email cs expired rr).2 = db) ∧
    (∀ e, cs = .error e →
        (get_valid_credentials db email cs expired rr).2 = db) ∧
    (expired = false →
        (get_valid_credentials db email cs expired rr).2 = db) ∧
    (∀ row, (db.filter (fun r => r.email = email)).head? = some row →
        truthyStr row.refresh_token = false →
        (get_valid_credentials db email cs expired rr).2 = db) ∧
    (∀ e, rr = .error e →
        (get_valid_credentials db email cs expired rr).2 = db) ∧
    (∀ row s tok, (db.filter (fun r => r.email = email)).head? = some row →
        cs = .ok s → expired = true → truthyStr row.refresh_token = true →
        rr = .ok tok →
        (get_valid_credentials db email cs expired rr).1
            = some ⟨some tok, row.refresh_token⟩ ∧
        ((get_valid_credentials db email cs expired rr).2).map (fun r => r.id)
            = db.map (fun r => r.id) ∧
        ((get_valid_credentials db email cs expired rr).2).map (fun r => r.email)
            = db.map (fun r => r.email) ∧
        ((get_valid_credentials db email cs expired rr).2).map (fun r => r.name)
            = db.map (fun r => r.name) ∧
        ((get_valid_credentials db email cs expired rr).2).map (fun r => r.picture)
            = db.map (fun r => r.picture) ∧
        ((get_valid_credentials db email cs expired rr).2).map
            (fun r => r.refresh_token)
            = db.map (fun r => r.refresh_token) ∧
        ((get_valid_credentials db email cs expired rr).2).map
            (fun r => if r.email = email then none else r.access_token)
            = db.map (fun r => if r.email = email then none else r.access_token) ∧
        ((get_valid_credentials db email cs expired rr).2).map
            (fun r => if r.email = email then r.access_token else none)
            = db.map (fun r => if r.email = email then some tok else none)) := by
  refine ⟨?_, ?_, ?_, ?_, ?_, ?_⟩
  · intro hnone
    unfold get_valid_credentials
    rw [hnone]
  · intro e he
    subst he
    unfold get_valid_credentials
    rcases hr : (db.filter (fun r => r.email = email)).head? with _ | row <;>
      rw [hr]
  · intro hexp
    subst hexp
    unfold get_valid_credentials
    rcases hr : (db.filter (fun r => r.email = email)).head? with _ | row
    · rw [hr]
    · rw [hr]
      rcases cs with e | s <;> rfl
  · intro row hr hf
    unfold get_valid_credentials
    rw [hr]
    rcases cs with e | s
    · rfl
    · simp [hf]
  · intro e he
    subst he
    unfold get_valid_credentials
    rcases hr : (db.filter (fun r => r.email = email)).head? with _ | row
    · rw [hr]
    · rw [hr]
      rcases cs with e' | s
      · rfl
      · by_cases hb : (expired && truthyStr row.refresh_token) = true
        · simp [hb]
        · simp [hb]
  · intro row s tok hr hcs hexp htr hrr
    subst hcs
    subst hexp
    subst hrr
    have hgvc : get_valid_credentials db email (.ok s) true (.ok tok)
        = (some ⟨some tok, row.refresh_token⟩,
           db.map (fun r =>
             if r.email = email then { r with access_token := some tok }
             else r)) := by
      unfold get_valid_credentials
      rw [hr]
      simp [htr]
    rw [hgvc]
    refine ⟨rfl, ?_, ?_, ?_, ?_, ?_, ?_, ?_⟩ <;>
      · rw [List.map_map]
        apply List.map_congr_left
        intro x hx
        by_cases hx' : x.email = email <;> simp [hx']

/-- C9 witness: a concrete successful refresh run and a concrete
read-only run. -/
theorem C9_witness :
    (get_valid_credentials [⟨1, "a@b.c", "a", "", some "old", some "r1"⟩]
        "a@b.c" (.ok "s") true (.ok "new")).1 = some ⟨some "new", some "r1"⟩ ∧
    ((get_valid_credentials [⟨1, "a@b.c", "a", "", some "old", some "r1"⟩]
        "a@b.c" (.ok "s") true (.ok "new")).2).map (fun r => r.refresh_token)
      = [some "r1"] ∧
    (get_valid_credentials [⟨1, "a@b.c", "a", "", some "old", some "r1"⟩]
        "a@b.c" (.ok "s") false (.ok "new")).2
      = [⟨1, "a@b.c", "a", "", some "old", some "r1"⟩] := by
  have hs := (C9_refresh_persists_only_access_token
      [⟨1, "a@b.c", "a", "", some "old", some "r1"⟩] "a@b.c" (.ok "s") true
      (.ok "new")).2.2.2.2.2
      ⟨1, "a@b.c", "a", "", some "old", some "r1"⟩ "s" "new"
      (by rfl) rfl rfl (by rfl) rfl
  have hro := (C9_refresh_persists_only_access_token
      [⟨1, "a@b.c", "a", "", some "old", some "r1"⟩] "a@b.c" (.ok "s") false
      (.ok "new")).2.2.1 rfl
  exact ⟨hs.1, (hs.2.2.2.2.2.1).trans (by rfl), hro⟩

/-- C4 counterexample: on a non-200 response the error field is the
response body with the fixed prefix Upload failed, not the body
verbatim. -/
theorem C4_counterexample :
    (upload_image_to_drive GDRIVE_FOLDER_ID "img.png" (some ⟨some "tok", none⟩)
        (.response ⟨403, "quota exceeded", none⟩)).1
      = { success := false, file_id := none, message := none,
          error := some "Upload failed: quota exceeded" } ∧
    (upload_image_to_drive GDRIVE_FOLDER_ID "img.png" (some ⟨some "tok", none⟩)
        (.response ⟨403, "quota exceeded", none⟩)).1.error
      ≠ some "quota exceeded" := by
  constructor
  · rfl
  · decide

/-- C4 (amended): upload_image_to_drive always returns a result
dictionary and never propagates: HTTP 200 gives success with the file id
from the response, any other status gives failure with the response body
embedded verbatim after the fixed prefix Upload failed, a network-level
exception gives failure with the exception message, and unresolved
credentials give failure without any request. -/
theorem C4_upload_result_characterization
    (folder fn : String) (c : Creds) (net : NetResult) :
    (∀ r : HttpResponse, net = .response r → r.status_code = 200 →
        (upload_image_to_drive folder fn (some c) net).1
          = { success := true, file_id := r.json_id,
              message := some ("File " ++ fn ++ " uploaded successfully!"),
              error := none }) ∧
    (∀ r : HttpResponse, net = .response r → r.status_code ≠ 200 →
        (upload_image_to_drive folder fn (some c) net).1
          = { success := false, file_id := none, message := none,
              error := some ("Upload failed: " ++ r.text) }) ∧
    (∀ msg, net = .exc msg →
        (upload_image_to_drive folder fn (some c) net).1
          = { success := false, file_id := none, message := none,
              error := some msg }) ∧
    (upload_image_to_drive folder fn none net).1
      = { success := false, file_id := none, message := none,
          error := some "No valid credentials found" } := by
  refine ⟨?_, ?_, ?_, rfl⟩
  · intro r hnet h200
    subst hnet
    unfold upload_image_to_drive
    simp [h200]
  · intro r hnet h200
    subst hnet
    unfold upload_image_to_drive
    simp [h200]
  · intro msg hnet
    subst hnet
    rfl

/-- C4 witness: a concrete 200 response and a concrete exception run. -/
theorem C4_witness :
    (upload_image_to_drive GDRIVE_FOLDER_ID "img.png" (some ⟨some "tok", none⟩)
        (.response ⟨200, "", some "fid"⟩)).1
      = { success := true, file_id := some "fid",
          message := some ("File " ++ "img.png" ++ " uploaded successfully!"),
          error := none } ∧
    (upload_image_to_drive GDRIVE_FOLDER_ID "img.png" (some ⟨some "tok", none⟩)
        (.exc "connection reset")).1
      = { success := false, file_id := none, message := none,
          error := some "connection reset" } := by
  refine ⟨?_, ?_⟩
  · exact (C4_upload_result_characterization GDRIVE_FOLDER_ID "img.png"
      ⟨some "tok", none⟩ (.response ⟨200, "", some "fid"⟩)).1
      ⟨200, "", some "fid"⟩ rfl rfl
  · exact (C4_upload_result_characterization GDRIVE_FOLDER_ID "img.png"
      ⟨some "tok", none⟩ (.exc "connection reset")).2.2.1
      "connection reset" rfl

/-- C7 counterexample: with the folder configuration empty (unset) and
resolvable credentials, the upload still posts the multipart request
(carrying the empty parent folder) and returns whatever the remote
decides; it does not return a folder-not-configured failure and it does
attempt network I/O. -/
theorem C7_counterexample :
    upload_image_to_drive "" "img.png" (some ⟨some "tok", none⟩)
        (.response ⟨200, "", some "fid"⟩)
      = ({ success := true, file_id := some "fid",
           message := some "File img.png uploaded successfully!",
           error := none },
         some ⟨"", "img.png"⟩) := by rfl

/-- C7 (amended): the source contains no folder-configuration check:
whenever credentials resolve, the request is posted with whatever folder
value is configured, the empty one included; and the shipped folder id
constant is set (non-empty), so the unset scenario never arises in this
configuration. -/
theorem C7_no_folder_configuration_check
    (folder fn : String) (c : Creds) (net : NetResult) :
    (upload_image_to_drive folder fn (some c) net).2 = some ⟨folder, fn⟩ ∧
    GDRIVE_FOLDER_ID ≠ "" := by
  constructor
  · rcases net with r | msg
    · unfold upload_image_to_drive
      by_cases h : r.status_code = 200 <;> simp [h]
    · rfl
  · decide

/-- Helper: a row produced by the max-id selection is in the list, or
was already the accumulator. -/
theorem foldl_maxStep_mem (l : List UserRow) :
    ∀ (acc : Option UserRow) (m : UserRow),
      l.foldl maxStep acc = some m → m ∈ l ∨ acc = some m := by
  induction l with
  | nil =>
    intro acc m h
    right
    exact h
  | cons x l ih =>
    intro acc m h
    rcases ih (maxStep acc x) m h with hm | hstep
    · exact Or.inl (List.mem_cons_of_mem _ hm)
    · rcases acc with _ | a
      · left
        have : x = m := by simpa [maxStep] using hstep
        subst this
        exact List.mem_cons_self x l
      · by_cases hid : x.id > a.id
        · left
          have : x = m := by simpa [maxStep, hid] using hstep
          subst this
          exact List.mem_cons_self x l
        · right
          simpa [maxStep, hid] using hstep

/-- Helper: the max-id row of a store is one of its rows. -/
theorem maxRow_mem (db : List UserRow) (m : UserRow)
    (h : maxRow db = some m) : m ∈ db := by
  rcases foldl_maxStep_mem db none m h with hm | habs
  · exact hm
  · cases habs

/-- Helper: appending a row with a strictly larger id than every row of
the store makes it the max-id row. -/
theorem maxRow_append_max (db : List UserRow) (r : UserRow)
    (hgt : ∀ x ∈ db, x.id < r.id) : maxRow (db ++ [r]) = some r := by
  unfold maxRow
  rw [List.foldl_append]
  show maxStep (db.foldl maxStep none) r = some r
  rcases hmax : db.foldl maxStep none with _ | m
  · rfl
  · have hm : m ∈ db := maxRow_mem db m hmax
    show (if r.id > m.id then some r else some m) = some r
    rw [if_pos (hgt m hm)]

/-- Helper: the max-id selection commutes with any row transformation
that preserves ids. -/
theorem foldl_maxStep_map (f : UserRow → UserRow)
    (hid : ∀ x, (f x).id = x.id) (l : List UserRow) :
    ∀ acc : Option UserRow,
      (l.map f).foldl maxStep (Option.map f acc)
        = Option.map f (l.foldl maxStep acc) := by
  induction l with
  | nil =>
    intro acc
    rfl
  | cons x l ih =>
    intro acc
    have hstep : maxStep (Option.map f acc) (f x) = Option.map f (maxStep acc x) := by
      rcases acc with _ | a
      · rfl
      · show (if (f x).id > (f a).id then some (f x) else some (f a))
            = Option.map f (if x.id > a.id then some x else some a)
        rw [hid, hid]
        by_cases h : x.id > a.id
        · rw [if_pos h, if_pos h]
          rfl
        · rw [if_neg h, if_neg h]
          rfl
    show (l.map f).foldl maxStep (maxStep (Option.map f acc) (f x))
        = Option.map f (l.foldl maxStep (maxStep acc x))
    rw [hstep, ih (maxStep acc x)]

/-- Helper: maxRow commutes with an id-preserving row transformation. -/
theorem maxRow_map (f : UserRow → UserRow) (hid : ∀ x, (f x).id = x.id)
    (l : List UserRow) : maxRow (l.map f) = Option.map f (maxRow l) :=
  foldl_maxStep_map f hid l none

/-- Helper: a fold of max is at least its initial value. -/
theorem le_foldl_max (l : List UserRow) :
    ∀ a : Nat, a ≤ l.foldl (fun m r => max m r.id) a := by
  induction l with
  | nil =>
    intro a
    exact le_refl a
  | cons x l ih =>
    intro a
    exact le_trans (le_max_left a x.id) (ih (max a x.id))

/-- Helper: a fold of max dominates the id of every member. -/
theorem mem_le_foldl_max (l : List UserRow) :
    ∀ (a : Nat) (x : UserRow), x ∈ l →
      x.id ≤ l.foldl (fun m r => max m r.id) a := by
  induction l with
  | nil =>
    intro a x hx
    cases hx
  | cons y l ih =>
    intro a x hx
    rcases List.mem_cons.mp hx with rfl | hx'
    · exact le_trans (le_max_right a x.id) (le_foldl_max l (max a x.id))
    · exact ih (max a y.id) x hx'

/-- Helper: the autoincrement id is strictly greater than every id in
the store. -/
theorem id_lt_nextId (db : List UserRow) (x : UserRow) (hx : x ∈ db) :
    x.id < nextId db :=
  Nat.lt_succ_of_le (mem_le_foldl_max db 0 x hx)

/-- Helper: upserting an identity that is not in the store makes it the
current identity, since the fresh row receives the largest id. -/
theorem save_fresh_becomes_current (db : List UserRow) (e a : String)
    (r : Option String) (hany : db.any (fun x => x.email = e) = false) :
    get_authenticated_user (save_manual_tokens db e a r) = some e := by
  unfold save_manual_tokens
  rw [if_neg (by simp [hany])]
  unfold get_authenticated_user
  have hid : ∀ x : UserRow,
      ((fun x => if x.email = e then
          { x with access_token := some a, refresh_token := r } else x) x).id
        = x.id := by
    intro x
    by_cases hx : x.email = e <;> simp [hx]
  rw [maxRow_map _ hid]
  rw [maxRow_append_max db _ (fun x hx => id_lt_nextId db x hx)]
  simp

/-- C5: the current identity is the most recently inserted one: the
empty store has none, inserting identities A then B from empty yields B,
and in general upserting a fresh identity into any store makes it the
current identity. -/
theorem C5_current_identity_is_latest :
    get_authenticated_user ([] : List UserRow) = none ∧
    (∀ A B a1 a2 : String, ∀ r1 r2 : Option String,
      get_authenticated_user
        (save_manual_tokens (save_manual_tokens [] A a1 r1) B a2 r2)
          = some B) ∧
    (∀ (db : List UserRow) (e a : String) (r : Option String),
      db.any (fun x => x.email = e) = false →
      get_authenticated_user (save_manual_tokens db e a r) = some e) := by
  refine ⟨rfl, ?_, fun db e a r h => save_fresh_becomes_current db e a r h⟩
  intro A B a1 a2 r1 r2
  have h1 : save_manual_tokens [] A a1 r1
      = [⟨1, A, A.takeWhile (fun c => c ≠ '@'), "", some a1, r1⟩] := by
    simp [save_manual_tokens, nextId]
  rw [h1]
  by_cases hab : B = A
  · subst hab
    have h2 : save_manual_tokens
        [⟨1, B, B.takeWhile (fun c => c ≠ '@'), "", some a1, r1⟩] B a2 r2
        = [⟨1, B, B.takeWhile (fun c => c ≠ '@'), "", some a2, r2⟩] := by
      simp [save_manual_tokens]
    rw [h2]
    rfl
  · exact save_fresh_becomes_current _ B a2 r2
      (by simp only [List.any_cons, List.any_nil, Bool.or_false,
            decide_eq_false_iff_not]
          exact fun h => hab h.symm)

/-- C5 witness: inserting two fresh identities from empty, and a fresh
identity into a populated store. -/
theorem C5_witness :
    get_authenticated_user
      (save_manual_tokens (save_manual_tokens [] "alice@x.com" "t1" none)
        "bob@x.com" "t2" none) = some "bob@x.com" ∧
    get_authenticated_user
      (save_manual_tokens [⟨5, "carol@x.com", "carol", "", some "t0", none⟩]
        "dave@x.com" "t3" none) = some "dave@x.com" :=
  ⟨C5_current_identity_is_latest.2.1 "alice@x.com" "bob@x.com" "t1" "t2"
      none none,
   C5_current_identity_is_latest.2.2
      [⟨5, "carol@x.com", "carol", "", some "t0", none⟩] "dave@x.com" "t3"
      none (by decide)⟩

/-- Helper: after an upsert, reading the tokens of the upserted identity
returns exactly the tokens just stored, whether or not the identity was
already present. -/
theorem get_tokens_save (db : List UserRow) (e a : String)
    (r : Option String) :
    get_tokens (save_manual_tokens db e a r) e = some (some a, r) := by
  have key : ∀ l : List UserRow, (∃ x ∈ l, x.email = e) →
      get_tokens (l.map (fun x =>
        if x.email = e then
          { x with access_token := some a, refresh_token := r } else x)) e
        = some (some a, r) := by
    intro l
    induction l with
    | nil =>
      rintro ⟨x, hx, _⟩
      cases hx
    | cons y l ih =>
      rintro ⟨x, hx, hxe⟩
      by_cases hy : y.email = e
      · unfold get_tokens
        simp only [List.map_cons, if_pos hy]
        rw [List.filter_cons_of_pos (by simp [hy])]
        rfl
      · unfold get_tokens
        simp only [List.map_cons, if_neg hy]
        rw [List.filter_cons_of_neg (by simp [hy])]
        apply ih
        rcases List.mem_cons.mp hx with rfl | hx'
        · exact absurd hxe hy
        · exact ⟨x, hx', hxe⟩
  unfold save_manual_tokens
  by_cases hany : db.any (fun x => x.email = e) = true
  · rw [if_pos hany]
    rcases List.any_eq_true.mp hany with ⟨x, hx, hxe⟩
    exact key db ⟨x, hx, by simpa using hxe⟩
  · rw [if_neg hany]
    exact key (db ++ [(⟨nextId db, e, e.takeWhile (fun c => c ≠ '@'), "",
        some a, r⟩ : UserRow)])
      ⟨(⟨nextId db, e, e.takeWhile (fun c => c ≠ '@'), "", some a, r⟩ : UserRow),
       List.mem_append_right db (List.mem_singleton_self _), rfl⟩

/-- C6: the email column stays duplicate-free under upsert, reading the
upserted identity back returns exactly the tokens just stored, and an
upsert of a present identity adds no row. -/
theorem C6_upsert_unique_key_and_readback
    (db : List UserRow) (e a : String) (r : Option String) :
    ((db.map (fun x => x.email)).Nodup →
      ((save_manual_tokens db e a r).map (fun x => x.email)).Nodup) ∧
    get_tokens (save_manual_tokens db e a r) e = some (some a, r) ∧
    (db.any (fun x => x.email = e) = true →
      (save_manual_tokens db e a r).length = db.length) := by
  refine ⟨?_, get_tokens_save db e a r, ?_⟩
  · intro hnd
    unfold save_manual_tokens
    by_cases hany : db.any (fun x => x.email = e) = true
    · rw [if_pos hany]
      have hmm : (List.map (fun x =>
          if x.email = e then
            { x with access_token := some a, refresh_token := r } else x) db).map
            (fun x => x.email) = db.map (fun x => x.email) := by
        rw [List.map_map]
        apply List.map_congr_left
        intro x hx
        by_cases hx' : x.email = e <;> simp [hx']
      rw [hmm]
      exact hnd
    · rw [if_neg hany]
      have hany' : db.any (fun x => x.email = e) = false := by
        revert hany
        cases db.any (fun x => x.email = e) <;> simp
      have hemails : ((db ++ [(⟨nextId db, e, e.takeWhile (fun c => c ≠ '@'),
          "", some a, r⟩ : UserRow)]).map (fun x : UserRow =>
            if x.email = e then
              { x with access_token := some a, refresh_token := r } else x)).map
            (fun x : UserRow => x.email)
          = db.map (fun x : UserRow => x.email) ++ [e] := by
        rw [List.map_map, List.map_append]
        congr 1
        · apply List.map_congr_left
          intro x hx
          by_cases hx' : x.email = e <;> simp [hx']
        · simp
      rw [hemails]
      refine List.Nodup.append hnd (List.nodup_singleton e) ?_
      intro x hx hxe
      rcases List.mem_map.mp hx with ⟨y, hy, hyx⟩
      have hxe' := List.eq_of_mem_singleton hxe
      subst hxe'
      have hny := List.any_eq_false.mp hany' y hy
      simp only [decide_eq_true_eq] at hny
      exact hny hyx
  · intro hany
    unfold save_manual_tokens
    rw [if_pos hany]
    simp

/-- C6 witness: a second upsert for an already present identity. -/
theorem C6_witness :
    (((save_manual_tokens [⟨1, "x@y.z", "x", "", some "t0", some "r0"⟩]
        "x@y.z" "t1" (some "r1")).map (fun x => x.email)).Nodup) ∧
    get_tokens (save_manual_tokens [⟨1, "x@y.z", "x", "", some "t0", some "r0"⟩]
        "x@y.z" "t1" (some "r1")) "x@y.z" = some (some "t1", some "r1") ∧
    (save_manual_tokens [⟨1, "x@y.z", "x", "", some "t0", some "r0"⟩]
        "x@y.z" "t1" (some "r1")).length = 1 :=
  ⟨(C6_upsert_unique_key_and_readback
      [⟨1, "x@y.z", "x", "", some "t0", some "r0"⟩] "x@y.z" "t1"
      (some "r1")).1 (by decide),
   (C6_upsert_unique_key_and_readback
      [⟨1, "x@y.z", "x", "", some "t0", some "r0"⟩] "x@y.z" "t1"
      (some "r1")).2.1,
   (C6_upsert_unique_key_and_readback
      [⟨1, "x@y.z", "x", "", some "t0", some "r0"⟩] "x@y.z" "t1"
      (some "r1")).2.2 (by decide)⟩

/-- C10: upserting an identity already present in the store keeps every
record id (the insert is ignored, the update rewrites token fields in
place), so the current identity, determined by the greatest id, is
unchanged. -/
theorem C10_reupsert_preserves_current_identity
    (db : List UserRow) (A t : String) (r : Option String) (B : String)
    (hA : db.any (fun x => x.email = A) = true)
    (hB : get_authenticated_user db = some B) :
    get_authenticated_user (save_manual_tokens db A t r) = some B ∧
    (save_manual_tokens db A t r).map (fun x => x.id) = db.map (fun x => x.id) ∧
    (save_manual_tokens db A t r).length = db.length := by
  unfold save_manual_tokens
  rw [if_pos hA]
  have hid : ∀ x : UserRow,
      ((fun x => if x.email = A then
          { x with access_token := some t, refresh_token := r } else x) x).id
        = x.id := by
    intro x
    by_cases hx : x.email = A <;> simp [hx]
  refine ⟨?_, ?_, by simp⟩
  · unfold get_authenticated_user at hB ⊢
    rw [maxRow_map _ hid]
    rcases hmax : maxRow db with _ | m
    · rw [hmax] at hB
      cases hB
    · rw [hmax] at hB
      have hmB : m.email = B := by simpa using hB
      have hfe : ((fun x : UserRow => if x.email = A then
          { x with access_token := some t, refresh_token := r } else x) m).email
          = m.email := by
        by_cases hm : m.email = A <;> simp [hm]
      simp only [Option.map_some']
      rw [hfe, hmB]
  · rw [List.map_map]
    apply List.map_congr_left
    intro x hx
    by_cases hx' : x.email = A <;> simp [hx']

/-- C10 witness: re-upserting identity a into a store where b was
inserted later leaves b current and all ids in place. -/
theorem C10_witness :
    get_authenticated_user
      (save_manual_tokens
        [⟨1, "a@x.com", "a", "", some "t0", none⟩,
         ⟨2, "b@x.com", "b", "", some "t1", none⟩] "a@x.com" "t9" (some "r9"))
      = some "b@x.com" ∧
    (save_manual_tokens
        [⟨1, "a@x.com", "a", "", some "t0", none⟩,
         ⟨2, "b@x.com", "b", "", some "t1", none⟩] "a@x.com" "t9"
        (some "r9")).map (fun x => x.id) = [1, 2] ∧
    (save_manual_tokens
        [⟨1, "a@x.com", "a", "", some "t0", none⟩,
         ⟨2, "b@x.com", "b", "", some "t1", none⟩] "a@x.com" "t9"
        (some "r9")).length = 2 :=
  C10_reupsert_preserves_current_identity
    [⟨1, "a@x.com", "a", "", some "t0", none⟩,
     ⟨2, "b@x.com", "b", "", some "t1", none⟩] "a@x.com" "t9" (some "r9")
    "b@x.com" (by decide) (by rfl)

end Posterflow
